import Mathlib

/-!
Verification of the tic-tac-toe websocket relay server (`src/main.py`).

The embedding mirrors the Python source:
* a board is the 3×3 grid `games[id]["board"]`, cells `""`/`"X"`/`"O"`
  modelled as `Option Player`;
* a session (`games[game_id]` dict) is the `Game` structure;
* the registry `games` is a partial map from the path identifier to a session;
* one iteration of the `while True` receive loop is `handle_message`; Python
  exceptions that escape the loop (`KeyError` from `data["row"]`,
  `IndexError` from `board[row][col]`) are the `Except.error` outcomes, since
  only `WebSocketDisconnect` is caught by the handler;
* Python list indexing (negative indices wrap, out-of-range raises) is
  `pyIndex`;
* `broadcast` tags each outbound message with the recipient's transport
  handle, mirroring the `for player in players: player["ws"].send_json(...)`
  loop.
-/

/-- A seat symbol: the Python strings `"X"` and `"O"`. -/
inductive Player where
  | X : Player
  | O : Player
deriving DecidableEq, Repr

/-- The opposite symbol, as computed by the source's
`"O" if p == "X" else "X"`. -/
def Player.other (p : Player) : Player :=
  if p = Player.X then Player.O else Player.X

/-- A board cell: Python `""` is `none`, `"X"`/`"O"` are `some`. -/
abbrev Cell := Option Player

/-- The 3×3 grid `game["board"]`. -/
abbrev Board := Fin 3 → Fin 3 → Cell

/-- The board produced by `[["" for _ in range(3)] for _ in range(3)]`. -/
def emptyBoard : Board := fun _ _ => none

/-- In-place cell assignment `board[row][col] = player_symbol`. -/
def updateBoard (b : Board) (r c : Fin 3) (v : Cell) : Board :=
  fun i j => if i = r ∧ j = c then v else b i j

/-- Python list indexing for a list of length `n`: a negative index `i` wraps
to `i + n`; an index outside `-n .. n-1` raises `IndexError` (`none`). -/
def pyIndex (n : Nat) (i : Int) : Option (Fin n) :=
  let j : Int := if i < 0 then i + n else i
  if h : 0 ≤ j ∧ j < n then some ⟨j.toNat, by omega⟩ else none

/-- The score dict `{"X": int, "O": int}`. -/
structure Score where
  x : Nat
  o : Nat
deriving DecidableEq, Repr

/-- Look up one player's score. -/
def Score.get (s : Score) : Player → Nat
  | Player.X => s.x
  | Player.O => s.o

/-- `game["score"][player_symbol] += 1`. -/
def Score.incr (s : Score) : Player → Score
  | Player.X => { s with x := s.x + 1 }
  | Player.O => { s with o := s.o + 1 }

/-- One entry of `game["players"]`: the dict
`{"symbol": player_symbol, "ws": websocket}`, with the transport handle
abstracted to a number. -/
structure Seat where
  symbol : Player
  ws : Nat
deriving DecidableEq, Repr

/-- One session: the dict created at `games[game_id] = {...}`. -/
structure Game where
  board : Board
  players : List Seat
  current_player : Player
  score : Score
  rematch_requests : Finset Player
  starting_player_for_round : Player

/-- The fresh session built on first connection to an unseen identifier. -/
def freshGame : Game :=
  { board := emptyBoard
    players := []
    current_player := Player.X
    score := { x := 0, o := 0 }
    rematch_requests := ∅
    starting_player_for_round := Player.X }

/-- The process-wide `games` dict. -/
abbrev Registry := String → Option Game

/-- `games[game_id] = g`. -/
def setReg (games : Registry) (game_id : String) (g : Game) : Registry :=
  fun i => if i = game_id then some g else games i

/-- `del games[game_id]`. -/
def delReg (games : Registry) (game_id : String) : Registry :=
  fun i => if i = game_id then none else games i

/-- Outbound messages (`send_json` payloads). -/
inductive OutMsg where
  | player_assignment (player : Player)
  | start_game (current_player : Player) (score : Score)
  | move (board : Board) (current_player : Player)
  | win (player : Player) (board : Board) (score : Score)
  | draw (board : Board)
  | new_game (board : Board) (current_player : Player) (score : Score)
  | opponent_left
  | error_game_full

/-- The `broadcast` coroutine: sends `m` to every seat's transport,
in seat order. -/
def broadcast (g : Game) (m : OutMsg) : List (Nat × OutMsg) :=
  g.players.map fun p => (p.ws, m)

/-- An inbound JSON object as the handler reads it: `data.get("event")` and
the optional `"row"`/`"col"` fields (absent field = `none`). -/
structure RawMsg where
  event : Option String
  row : Option Int
  col : Option Int

/-- Python exceptions that escape the receive loop and terminate the
connection handler (only `WebSocketDisconnect` is caught). -/
inductive PyErr where
  | keyError
  | indexError
deriving DecidableEq, Repr

/-- `check_win(board, player)` from the source: any full row or column
(the `for i in range(3)` loop) or either diagonal. -/
def check_win (board : Board) (player : Player) : Bool :=
  ((List.finRange 3).any fun i =>
      ((List.finRange 3).all fun j => board i j == some player) ||
      ((List.finRange 3).all fun j => board j i == some player)) ||
    ((List.finRange 3).all fun i => board i i == some player) ||
    ((List.finRange 3).all fun i => board i (2 - i) == some player)

/-- `check_draw(board)` from the source: every cell is non-empty. -/
def check_draw (board : Board) : Bool :=
  (List.finRange 3).all fun i =>
    (List.finRange 3).all fun j => board i j != none

/-- `reset_game_board(game_id, starter)`: clears the board, sets the given
starter as current player, empties the rematch vote set. -/
def reset_game_board (g : Game) (starter : Player) : Game :=
  { g with
      board := emptyBoard
      current_player := starter
      rematch_requests := ∅ }

/-- One iteration of the receive loop of `websocket_endpoint`, for the seat
holding `player_symbol`: dispatch on `data.get("event")`, mutate the session,
and return it with the list of `(recipient ws, message)` sends.  `Except.error`
marks an uncaught Python exception (the handler terminates). -/
def handle_message (game : Game) (player_symbol : Player) (data : RawMsg) :
    Except PyErr (Game × List (Nat × OutMsg)) :=
  if data.event = some "make_move" then
    if game.current_player = player_symbol ∧ game.players.length = 2 then
      match data.row, data.col with
      | some row, some col =>
        match pyIndex 3 row, pyIndex 3 col with
        | some r, some c =>
          if game.board r c = none then
            let board1 := updateBoard game.board r c (some player_symbol)
            if check_win board1 player_symbol then
              let score1 := game.score.incr player_symbol
              let game1 := { game with board := board1, score := score1 }
              Except.ok (game1, broadcast game1 (OutMsg.win player_symbol board1 score1))
            else if check_draw board1 then
              let game1 := { game with board := board1 }
              Except.ok (game1, broadcast game1 (OutMsg.draw board1))
            else
              let next := if player_symbol = Player.X then Player.O else Player.X
              let game1 := { game with board := board1, current_player := next }
              Except.ok (game1, broadcast game1 (OutMsg.move board1 next))
          else
            Except.ok (game, [])
        | _, _ => Except.error PyErr.indexError
      | _, _ => Except.error PyErr.keyError
    else
      Except.ok (game, [])
  else if data.event = some "rematch_request" then
    let votes := insert player_symbol game.rematch_requests
    let game1 := { game with rematch_requests := votes }
    if votes.card = 2 then
      let current_starter := game1.starting_player_for_round
      let next_starter := if current_starter = Player.X then Player.O else Player.X
      let game2 := { game1 with starting_player_for_round := next_starter }
      let game3 := reset_game_board game2 next_starter
      Except.ok (game3,
        broadcast game3 (OutMsg.new_game game3.board game3.current_player game3.score))
    else
      Except.ok (game1, [])
  else
    Except.ok (game, [])

/-- The connection-establishment prefix of `websocket_endpoint` (before the
receive loop): lazily create the session, reject a third seat with the
`"Game is full"` error and a close, otherwise assign `X`/`O`, append the seat,
send `player_assignment` directly, and broadcast `start_game` when the second
seat fills.  Returns the registry, the sends, the assigned symbol (`none` when
rejected), and whether the server closed the channel. -/
def connect (games : Registry) (game_id : String) (ws : Nat) :
    Registry × List (Nat × OutMsg) × Option Player × Bool :=
  let games1 := if (games game_id).isNone then setReg games game_id freshGame else games
  match games1 game_id with
  | none => (games1, [], none, true)
  | some game =>
    if 2 ≤ game.players.length then
      (games1, [(ws, OutMsg.error_game_full)], none, true)
    else
      let player_symbol := if game.players.length = 0 then Player.X else Player.O
      let game1 := { game with players := game.players ++ [⟨player_symbol, ws⟩] }
      let sends :=
        (ws, OutMsg.player_assignment player_symbol) ::
          (if game1.players.length = 2 then
            broadcast game1 (OutMsg.start_game game1.current_player game1.score)
          else [])
      (setReg games1 game_id game1, sends, some player_symbol, false)

/-- The `WebSocketDisconnect` handler: drop the seat whose transport is `ws`,
notify any remaining seat with `opponent_left`, and delete the session from
the registry when its seat list becomes empty. -/
def disconnect (games : Registry) (game_id : String) (ws : Nat) :
    Registry × List (Nat × OutMsg) :=
  match games game_id with
  | none => (games, [])
  | some game =>
    match game.players.find? (fun p => p.ws == ws) with
    | some p =>
      let game1 := { game with players := game.players.erase p }
      if game1.players = [] then
        (delReg games game_id, [])
      else
        (setReg games game_id game1, broadcast game1 OutMsg.opponent_left)
    | none =>
      if game.players = [] then (delReg games game_id, []) else (games, [])

/-! ## Helper lemmas -/

/-- An in-range coordinate (the value of a `Fin 3`) resolves through Python
indexing to itself. -/
theorem pyIndex_coe (n : Nat) (r : Fin n) : pyIndex n ((r : Nat) : Int) = some r := by
  have hr := r.isLt
  have h1 : ¬ (((r : Nat) : Int) < 0) := by omega
  simp only [pyIndex, h1, if_false]
  rw [dif_pos (by omega)]
  exact congrArg some (Fin.ext (by simp))

/-- The spec's winning condition: some row, some column, or one of the two
diagonals consists entirely of the symbol. -/
def WinSpec (b : Board) (p : Player) : Prop :=
  (∃ i : Fin 3, ∀ j : Fin 3, b i j = some p) ∨
  (∃ i : Fin 3, ∀ j : Fin 3, b j i = some p) ∨
  (∀ i : Fin 3, b i i = some p) ∨
  (∀ i : Fin 3, b i (2 - i) = some p)

/-- C8: for every 3×3 board and every symbol, `check_win` returns true iff
some row, some column, or one of the two diagonals consists entirely of that
symbol; in particular it is false on the all-empty board. -/
theorem check_win_correct :
    (∀ (b : Board) (p : Player), check_win b p = true ↔ WinSpec b p) ∧
    (∀ p : Player, check_win emptyBoard p = false) := by
  constructor
  · intro b p
    simp only [check_win, WinSpec, Bool.or_eq_true, List.any_eq_true,
      List.all_eq_true, List.mem_finRange, true_and, true_implies, beq_iff_eq,
      exists_or]
    tauto
  · intro p
    cases p <;> rfl

/-- C9: for every 3×3 board, `check_draw` returns true iff all 9 cells are
occupied. -/
theorem check_draw_correct (b : Board) :
    check_draw b = true ↔ ∀ i j : Fin 3, b i j ≠ none := by
  simp only [check_draw, List.all_eq_true, List.mem_finRange, true_and,
    true_implies, bne_iff_ne, ne_eq]

/-- A concrete two-seated session used as a witness input: seats X (ws 0) and
O (ws 1), empty board, X to move. -/
def gTwo : Game :=
  { board := emptyBoard
    players := [⟨Player.X, 0⟩, ⟨Player.O, 1⟩]
    current_player := Player.X
    score := ⟨0, 0⟩
    rematch_requests := ∅
    starting_player_for_round := Player.X }

/-- C1: in a two-seated session, an in-range `make_move` is applied (the cell
gets the mover's symbol) iff it is the mover's turn and the cell is empty;
otherwise the whole session state is unchanged and nothing is broadcast. -/
theorem make_move_applied_iff (g : Game) (sym : Player) (r c : Fin 3)
    (h2 : g.players.length = 2) :
    ((g.current_player = sym ∧ g.board r c = none) →
      ∃ g1 msgs,
        handle_message g sym
            ⟨some "make_move", some ((r : Nat) : Int), some ((c : Nat) : Int)⟩ =
          Except.ok (g1, msgs) ∧ g1.board r c = some sym) ∧
    (¬ (g.current_player = sym ∧ g.board r c = none) →
      handle_message g sym
          ⟨some "make_move", some ((r : Nat) : Int), some ((c : Nat) : Int)⟩ =
        Except.ok (g, [])) := by
  constructor
  · rintro ⟨hturn, hempty⟩
    simp only [handle_message, pyIndex_coe, hturn, h2, and_self, if_true,
      reduceCtorEq, reduceIte, Option.some.injEq]
    rw [if_pos hempty]
    split_ifs <;> exact ⟨_, _, rfl, by simp [updateBoard]⟩
  · intro hn
    by_cases hturn : g.current_player = sym
    · have hempty : ¬ g.board r c = none := fun he => hn ⟨hturn, he⟩
      simp only [handle_message, pyIndex_coe, hturn, h2, and_self, if_true,
        reduceCtorEq, reduceIte, Option.some.injEq]
      rw [if_neg hempty]
    · simp only [handle_message, hturn, false_and, if_false,
        reduceCtorEq, reduceIte, Option.some.injEq]

/-- Witness for C1: in the concrete session `gTwo`, the move (0,0) by X. -/
theorem make_move_applied_iff_witness :
    gTwo.players.length = 2 ∧
    ((gTwo.current_player = Player.X ∧ gTwo.board 0 0 = none →
        ∃ g1 msgs,
          handle_message gTwo Player.X
              ⟨some "make_move", some (((0 : Fin 3) : Nat) : Int),
                some (((0 : Fin 3) : Nat) : Int)⟩ =
            Except.ok (g1, msgs) ∧ g1.board 0 0 = some Player.X) ∧
      (¬ (gTwo.current_player = Player.X ∧ gTwo.board 0 0 = none) →
        handle_message gTwo Player.X
            ⟨some "make_move", some (((0 : Fin 3) : Nat) : Int),
              some (((0 : Fin 3) : Nat) : Int)⟩ =
          Except.ok (gTwo, []))) :=
  ⟨rfl, make_move_applied_iff gTwo Player.X 0 0 rfl⟩

/-- The session `gTwo` after the cell (2,2) is marked by X (the effect of the
out-of-range move (-1,-1), which Python's negative indexing wraps around). -/
def gWrapped : Game :=
  { gTwo with
      board := updateBoard gTwo.board 2 2 (some Player.X)
      current_player := Player.O }

/-- C2 counterexample: on X's turn in the two-seated session `gTwo`, a
`make_move` with row 3 (outside 0–2) raises `IndexError` and one with missing
coordinates raises `KeyError` — both uncaught, terminating the connection
handler instead of being ignored — and a `make_move` at (-1,-1) (also outside
0–2) is not dropped: it marks cell (2,2) and broadcasts `move`. -/
theorem malformed_not_ignored :
    handle_message gTwo Player.X ⟨some "make_move", some 3, some 0⟩ =
      Except.error PyErr.indexError ∧
    handle_message gTwo Player.X ⟨some "make_move", none, none⟩ =
      Except.error PyErr.keyError ∧
    handle_message gTwo Player.X ⟨some "make_move", some (-1), some (-1)⟩ =
      Except.ok (gWrapped,
        [(0, OutMsg.move gWrapped.board Player.O),
         (1, OutMsg.move gWrapped.board Player.O)]) ∧
    gWrapped.board 2 2 = some Player.X :=
  ⟨rfl, rfl, rfl, rfl⟩

/-- C2 amended: a message with an unknown or missing event is ignored without
terminating the handler, and a malformed `make_move` is ignored when it is not
the sender's turn or the session is not two-seated; but on the sender's turn
in a two-seated session, a `make_move` with a missing coordinate raises
`KeyError` and one whose coordinate resolves to no Python index (outside
-3..2) raises `IndexError`, terminating the connection handler. -/
theorem malformed_message_behavior (g : Game) (sym : Player) :
    (∀ ev r c, ev ≠ some "make_move" → ev ≠ some "rematch_request" →
        handle_message g sym ⟨ev, r, c⟩ = Except.ok (g, [])) ∧
    (∀ r c, ¬ (g.current_player = sym ∧ g.players.length = 2) →
        handle_message g sym ⟨some "make_move", r, c⟩ = Except.ok (g, [])) ∧
    (g.current_player = sym ∧ g.players.length = 2 →
      (∀ r c, r = none ∨ c = none →
          handle_message g sym ⟨some "make_move", r, c⟩ =
            Except.error PyErr.keyError) ∧
      (∀ r c, pyIndex 3 r = none ∨ pyIndex 3 c = none →
          handle_message g sym ⟨some "make_move", some r, some c⟩ =
            Except.error PyErr.indexError)) := by
  refine ⟨?_, ?_, ?_⟩
  · intro ev r c h1 h2
    simp only [handle_message]
    rw [if_neg h1, if_neg h2]
  · intro r c hn
    simp only [handle_message, reduceIte]
    rw [if_neg hn]
  · intro hok
    constructor
    · intro r c hrc
      simp only [handle_message, reduceIte]
      rw [if_pos hok]
      rcases hrc with h | h
      · subst h; rfl
      · subst h; cases r <;> rfl
    · intro r c hrc
      simp only [handle_message, reduceIte]
      rw [if_pos hok]
      rcases hrc with h | h
      · rw [h]
      · rw [h]; cases pyIndex 3 r <;> rfl

/-- Witness for the amended C2: concrete malformed messages in `gTwo`. -/
theorem malformed_message_behavior_witness :
    handle_message gTwo Player.X ⟨some "chat", some 0, some 0⟩ =
      Except.ok (gTwo, []) ∧
    handle_message gTwo Player.O ⟨some "make_move", none, some 5⟩ =
      Except.ok (gTwo, []) ∧
    handle_message gTwo Player.X ⟨some "make_move", none, some 0⟩ =
      Except.error PyErr.keyError ∧
    handle_message gTwo Player.X ⟨some "make_move", some 7, some 0⟩ =
      Except.error PyErr.indexError :=
  ⟨(malformed_message_behavior gTwo Player.X).1 (some "chat") (some 0) (some 0)
      (by decide) (by decide),
    (malformed_message_behavior gTwo Player.O).2.1 none (some 5) (by decide),
    ((malformed_message_behavior gTwo Player.X).2.2 (by exact ⟨rfl, rfl⟩)).1 none (some 0)
      (Or.inl rfl),
    ((malformed_message_behavior gTwo Player.X).2.2 (by exact ⟨rfl, rfl⟩)).2 7 0
      (Or.inl rfl)⟩

/-- A reachable post-win session: X has just completed row 0
(play X(0,0) O(1,0) X(0,1) O(2,0) X(0,2)), `score` is {X:1, O:0}, and — since
the winning branch never advances the turn — `current_player` is still X. -/
def gWin : Game :=
  { board := fun i j =>
      if i.val = 0 then some Player.X
      else if j.val = 0 then some Player.O
      else none
    players := [⟨Player.X, 0⟩, ⟨Player.O, 1⟩]
    current_player := Player.X
    score := ⟨1, 0⟩
    rematch_requests := ∅
    starting_player_for_round := Player.X }

/-- `gWin` after X moves again at (1,1): the move is accepted, and since row 0
is still all-X, `check_win` fires again and the score is incremented again. -/
def gWinAfter : Game :=
  { gWin with
      board := updateBoard gWin.board 1 1 (some Player.X)
      score := ⟨2, 0⟩ }

/-- C3: the round does NOT end on a win.  In the reachable state `gWin`, where
X has already won (`check_win` holds and `score` = {X:1,O:0}), a further
`make_move` by X at the empty cell (1,1) is still applied: the cell changes,
`win` is broadcast again, and X's score is incremented a second time — the
code contradicts the spec's "Round ends" after a win. -/
theorem move_applied_after_win :
    check_win gWin.board Player.X = true ∧
    handle_message gWin Player.X ⟨some "make_move", some 1, some 1⟩ =
      Except.ok (gWinAfter,
        [(0, OutMsg.win Player.X gWinAfter.board ⟨2, 0⟩),
         (1, OutMsg.win Player.X gWinAfter.board ⟨2, 0⟩)]) ∧
    gWinAfter.board 1 1 = some Player.X ∧
    gWinAfter.score.x = gWin.score.x + 1 :=
  ⟨rfl, rfl, rfl, rfl⟩

/-- C4: the rematch protocol.  In a two-seated session, a vote that does not
complete the quorum only records the vote (board, turn, score, starter
untouched; nothing broadcast); the vote completing the quorum resets the board
to empty, flips the round starter, sets `current_player` to the new starter,
clears the votes, and broadcasts `new_game` — so the starter alternates every
round regardless of scores (and flipping twice returns the original starter).
-/
theorem rematch_protocol (g : Game) (sym : Player) (_h2 : g.players.length = 2) :
    ((insert sym g.rematch_requests).card ≠ 2 →
      handle_message g sym ⟨some "rematch_request", none, none⟩ =
        Except.ok ({ g with rematch_requests := insert sym g.rematch_requests },
          [])) ∧
    ((insert sym g.rematch_requests).card = 2 →
      handle_message g sym ⟨some "rematch_request", none, none⟩ =
        Except.ok
          ({ g with
              board := emptyBoard
              current_player := g.starting_player_for_round.other
              rematch_requests := ∅
              starting_player_for_round := g.starting_player_for_round.other },
            broadcast
              { g with
                  board := emptyBoard
                  current_player := g.starting_player_for_round.other
                  rematch_requests := ∅
                  starting_player_for_round := g.starting_player_for_round.other }
              (OutMsg.new_game emptyBoard g.starting_player_for_round.other
                g.score))) ∧
    (∀ p : Player, p.other.other = p) := by
  have hne : (some "rematch_request" : Option String) ≠ some "make_move" := by
    decide
  refine ⟨?_, ?_, ?_⟩
  · intro h
    simp only [handle_message, reduceIte]
    rw [if_neg hne, if_neg h]
  · intro h
    simp only [handle_message, reduceIte]
    rw [if_neg hne, if_pos h]
    simp only [reset_game_board, Player.other]
  · intro p
    cases p <;> rfl

/-- Witness for C4: in `gTwo` (no votes yet), X's lone vote is recorded
silently; in `gVoted` (X already voted), O's vote completes the quorum. -/
theorem rematch_protocol_witness :
    gTwo.players.length = 2 ∧
    ((insert Player.X gTwo.rematch_requests).card ≠ 2 →
      handle_message gTwo Player.X ⟨some "rematch_request", none, none⟩ =
        Except.ok
          ({ gTwo with rematch_requests := insert Player.X gTwo.rematch_requests },
            [])) ∧
    ((insert Player.X gTwo.rematch_requests).card = 2 →
      handle_message gTwo Player.X ⟨some "rematch_request", none, none⟩ =
        Except.ok
          ({ gTwo with
              board := emptyBoard
              current_player := gTwo.starting_player_for_round.other
              rematch_requests := ∅
              starting_player_for_round := gTwo.starting_player_for_round.other },
            broadcast
              { gTwo with
                  board := emptyBoard
                  current_player := gTwo.starting_player_for_round.other
                  rematch_requests := ∅
                  starting_player_for_round := gTwo.starting_player_for_round.other }
              (OutMsg.new_game emptyBoard gTwo.starting_player_for_round.other
                gTwo.score))) ∧
    (∀ p : Player, p.other.other = p) :=
  ⟨rfl, rematch_protocol gTwo Player.X rfl⟩

/-- C5: a valid move that makes `check_win` true for the mover increments the
winner's score by exactly 1, leaves the opponent's score unchanged, and
broadcasts `win` — carrying the updated board, the winner and the updated
score — to every seat (both, since the session is two-seated). -/
theorem winning_move_score (g : Game) (sym : Player) (r c : Fin 3)
    (hturn : g.current_player = sym) (h2 : g.players.length = 2)
    (hempty : g.board r c = none)
    (hwin : check_win (updateBoard g.board r c (some sym)) sym = true) :
    handle_message g sym
        ⟨some "make_move", some ((r : Nat) : Int), some ((c : Nat) : Int)⟩ =
      Except.ok
        ({ g with
            board := updateBoard g.board r c (some sym)
            score := g.score.incr sym },
          broadcast
            { g with
                board := updateBoard g.board r c (some sym)
                score := g.score.incr sym }
            (OutMsg.win sym (updateBoard g.board r c (some sym))
              (g.score.incr sym))) ∧
    (g.score.incr sym).get sym = g.score.get sym + 1 ∧
    (g.score.incr sym).get sym.other = g.score.get sym.other ∧
    (broadcast
        { g with
            board := updateBoard g.board r c (some sym)
            score := g.score.incr sym }
        (OutMsg.win sym (updateBoard g.board r c (some sym))
          (g.score.incr sym))).length = 2 := by
  refine ⟨?_, ?_, ?_, ?_⟩
  · simp only [handle_message, pyIndex_coe, hturn, h2, and_self, if_true,
      reduceIte]
    rw [if_pos hempty, if_pos hwin]
  · cases sym <;> rfl
  · cases sym <;> rfl
  · simp [broadcast, h2]

/-- A two-seated session where X holds (0,0) and (0,1), O holds (1,0) and
(1,1), and X (to move) can win by playing (0,2). -/
def gAlmost : Game :=
  { gTwo with
      board := fun i j =>
        if i.val = 0 ∧ j.val < 2 then some Player.X
        else if i.val = 1 ∧ j.val < 2 then some Player.O
        else none }

/-- Witness for C5: X completes row 0 of `gAlmost` by playing (0,2). -/
theorem winning_move_score_witness :
    gAlmost.current_player = Player.X ∧
    gAlmost.players.length = 2 ∧
    gAlmost.board 0 2 = none ∧
    check_win (updateBoard gAlmost.board 0 2 (some Player.X)) Player.X = true ∧
    (handle_message gAlmost Player.X
        ⟨some "make_move", some (((0 : Fin 3) : Nat) : Int),
          some (((2 : Fin 3) : Nat) : Int)⟩ =
      Except.ok
        ({ gAlmost with
            board := updateBoard gAlmost.board 0 2 (some Player.X)
            score := gAlmost.score.incr Player.X },
          broadcast
            { gAlmost with
                board := updateBoard gAlmost.board 0 2 (some Player.X)
                score := gAlmost.score.incr Player.X }
            (OutMsg.win Player.X (updateBoard gAlmost.board 0 2 (some Player.X))
              (gAlmost.score.incr Player.X))) ∧
      (gAlmost.score.incr Player.X).get Player.X =
        gAlmost.score.get Player.X + 1 ∧
      (gAlmost.score.incr Player.X).get Player.X.other =
        gAlmost.score.get Player.X.other ∧
      (broadcast
          { gAlmost with
              board := updateBoard gAlmost.board 0 2 (some Player.X)
              score := gAlmost.score.incr Player.X }
          (OutMsg.win Player.X (updateBoard gAlmost.board 0 2 (some Player.X))
            (gAlmost.score.incr Player.X))).length = 2) :=
  ⟨rfl, rfl, rfl, by decide,
    winning_move_score gAlmost Player.X 0 2 rfl rfl rfl (by decide)⟩

/-- C6: disconnect handling.  In a two-seated session, disconnecting either
seat shrinks the seat list to the other seat, which alone receives
`opponent_left`; disconnecting the only seat of a one-seated session removes
the session from the registry with no message, and a subsequent connection to
the same identifier gets a fresh session (empty board, score {X:0,O:0},
`current_player` X, no votes) seated as X. -/
theorem disconnect_cleanup (games : Registry) (id : String) (g : Game)
    (hg : games id = some g) :
    (∀ s1 s2, g.players = [s1, s2] → s1.ws ≠ s2.ws →
      ((disconnect games id s1.ws).1 id = some { g with players := [s2] } ∧
        (disconnect games id s1.ws).2 = [(s2.ws, OutMsg.opponent_left)]) ∧
      ((disconnect games id s2.ws).1 id = some { g with players := [s1] } ∧
        (disconnect games id s2.ws).2 = [(s1.ws, OutMsg.opponent_left)])) ∧
    (∀ s, g.players = [s] →
      (disconnect games id s.ws).1 id = none ∧
      (disconnect games id s.ws).2 = [] ∧
      ∀ ws2,
        (connect (disconnect games id s.ws).1 id ws2).1 id =
          some { freshGame with players := [⟨Player.X, ws2⟩] } ∧
        (connect (disconnect games id s.ws).1 id ws2).2.1 =
          [(ws2, OutMsg.player_assignment Player.X)]) := by
  constructor
  · rintro s1 s2 hp hne
    have hb1 : (s1.ws == s1.ws) = true := beq_self_eq_true s1.ws
    have hb2 : (s1.ws == s2.ws) = false := beq_eq_false_iff_ne.mpr hne
    have hb3 : (s2.ws == s2.ws) = true := beq_self_eq_true s2.ws
    have hs12 : s1 ≠ s2 := fun h => hne (by rw [h])
    have hbs : (s1 == s2) = false := beq_eq_false_iff_ne.mpr hs12
    have hbs1 : (s1 == s1) = true := beq_self_eq_true s1
    have hbs2 : (s2 == s2) = true := beq_self_eq_true s2
    refine ⟨⟨?_, ?_⟩, ⟨?_, ?_⟩⟩ <;>
      simp [disconnect, hg, hp, hb1, hb2, hb3, hbs, hbs1, hbs2,
        List.find?, List.erase_cons, setReg, broadcast]
  · rintro s hp
    have hb1 : (s.ws == s.ws) = true := beq_self_eq_true s.ws
    have hbs : (s == s) = true := beq_self_eq_true s
    refine ⟨?_, ?_, ?_⟩
    · simp [disconnect, hg, hp, hb1, hbs, List.find?, List.erase_cons, delReg]
    · simp [disconnect, hg, hp, hb1, hbs, List.find?, List.erase_cons]
    · intro ws2
      constructor <;>
        simp [disconnect, connect, hg, hp, hb1, hbs, List.find?,
          List.erase_cons, setReg, delReg, freshGame, broadcast]

/-- A registry holding `gTwo` under the identifier `"g"`. -/
def regTwo : Registry := fun i => if i = "g" then some gTwo else none

/-- A one-seated session: only X, on transport 5. -/
def gOne : Game := { freshGame with players := [⟨Player.X, 5⟩] }

/-- A registry holding `gOne` under the identifier `"h"`. -/
def regOne : Registry := fun i => if i = "h" then some gOne else none

/-- Witness for C6: disconnecting each seat of `gTwo`, and disconnecting the
only seat of `gOne` followed by a fresh connection. -/
theorem disconnect_cleanup_witness :
    regTwo "g" = some gTwo ∧
    (((disconnect regTwo "g" 0).1 "g" =
        some { gTwo with players := [⟨Player.O, 1⟩] } ∧
      (disconnect regTwo "g" 0).2 = [(1, OutMsg.opponent_left)]) ∧
     ((disconnect regTwo "g" 1).1 "g" =
        some { gTwo with players := [⟨Player.X, 0⟩] } ∧
      (disconnect regTwo "g" 1).2 = [(0, OutMsg.opponent_left)])) ∧
    regOne "h" = some gOne ∧
    ((disconnect regOne "h" 5).1 "h" = none ∧
     (disconnect regOne "h" 5).2 = [] ∧
     ((connect (disconnect regOne "h" 5).1 "h" 7).1 "h" =
        some { freshGame with players := [⟨Player.X, 7⟩] } ∧
      (connect (disconnect regOne "h" 5).1 "h" 7).2.1 =
        [(7, OutMsg.player_assignment Player.X)])) :=
  ⟨rfl,
    (disconnect_cleanup regTwo "g" gTwo rfl).1 ⟨Player.X, 0⟩ ⟨Player.O, 1⟩ rfl
      (by decide),
    rfl,
    by
      have h := (disconnect_cleanup regOne "h" gOne rfl).2 ⟨Player.X, 5⟩ rfl
      exact ⟨h.1, h.2.1, h.2.2 7⟩⟩

/-- C7: a connection to a session that already has two seats is sent the
`"Game is full"` error, its channel is closed, and the registry — hence the
session's whole state — is unchanged. -/
theorem join_full_rejected (games : Registry) (id : String) (g : Game)
    (ws : Nat) (hg : games id = some g) (h2 : g.players.length = 2) :
    connect games id ws = (games, [(ws, OutMsg.error_game_full)], none, true) := by
  simp [connect, hg, h2]

/-- Witness for C7: a third connection (transport 9) to `gTwo`. -/
theorem join_full_rejected_witness :
    regTwo "g" = some gTwo ∧ gTwo.players.length = 2 ∧
    connect regTwo "g" 9 = (regTwo, [(9, OutMsg.error_game_full)], none, true) :=
  ⟨rfl, rfl, join_full_rejected regTwo "g" gTwo 9 rfl rfl⟩

/-- C10: a recorded rematch vote survives seat departures and arrivals
(`disconnect` and `connect` never change `rematch_requests` of a surviving
session), and when one vote is already recorded, a single vote by any symbol
not yet in the set completes the quorum and starts the new round (board
cleared, votes cleared, `new_game` broadcast). -/
theorem rematch_votes_persist :
    (∀ (games : Registry) (id : String) (ws : Nat) (g g1 : Game),
        games id = some g → (disconnect games id ws).1 id = some g1 →
        g1.rematch_requests = g.rematch_requests) ∧
    (∀ (games : Registry) (id : String) (ws : Nat) (g g1 : Game),
        games id = some g → (connect games id ws).1 id = some g1 →
        g1.rematch_requests = g.rematch_requests) ∧
    (∀ (g : Game) (sym : Player),
        sym ∉ g.rematch_requests → g.rematch_requests.card = 1 →
        handle_message g sym ⟨some "rematch_request", none, none⟩ =
          Except.ok
            ({ g with
                board := emptyBoard
                current_player := g.starting_player_for_round.other
                rematch_requests := ∅
                starting_player_for_round := g.starting_player_for_round.other },
              broadcast
                { g with
                    board := emptyBoard
                    current_player := g.starting_player_for_round.other
                    rematch_requests := ∅
                    starting_player_for_round := g.starting_player_for_round.other }
                (OutMsg.new_game emptyBoard g.starting_player_for_round.other
                  g.score))) := by
  refine ⟨?_, ?_, ?_⟩
  · intro games id ws g g1 hg h1
    simp only [disconnect, hg] at h1
    split at h1
    · split at h1
      · simp [delReg] at h1
      · simp only [setReg, if_pos rfl, if_true, ite_true,
          Option.some.injEq] at h1
        subst h1; rfl
    · split at h1
      · simp [delReg] at h1
      · simp only [hg, Option.some.injEq] at h1
        subst h1; rfl
  · intro games id ws g g1 hg h1
    simp only [connect, hg, Option.isNone_some, Bool.false_eq_true, if_false,
      reduceIte] at h1
    split at h1
    · simp only [hg, Option.some.injEq] at h1
      subst h1; rfl
    · simp only [setReg, if_pos rfl, if_true, ite_true,
        Option.some.injEq] at h1
      subst h1; rfl
  · intro g sym hmem hone
    have hne : (some "rematch_request" : Option String) ≠ some "make_move" := by
      decide
    have hcard : (insert sym g.rematch_requests).card = 2 := by
      rw [Finset.card_insert_of_not_mem hmem, hone]
    simp only [handle_message, reduceIte]
    rw [if_neg hne, if_pos hcard]
    simp only [reset_game_board, Player.other]

/-- A two-seated session in which X has already voted for a rematch. -/
def gVoted : Game := { gTwo with rematch_requests := {Player.X} }

/-- A registry holding `gVoted` under the identifier `"v"`. -/
def regVoted : Registry := fun i => if i = "v" then some gVoted else none

/-- `gVoted` after its O seat has disconnected. -/
def gDropped : Game := { gVoted with players := [⟨Player.X, 0⟩] }

/-- Witness for C10: a vote in `gVoted` survives X's opponent disconnecting
and a replacement joining, and the replacement O's single vote completes the
quorum. -/
theorem rematch_votes_persist_witness :
    regVoted "v" = some gVoted ∧
    (disconnect regVoted "v" 1).1 "v" = some gDropped ∧
    gDropped.rematch_requests = gVoted.rematch_requests ∧
    Player.O ∉ gVoted.rematch_requests ∧
    gVoted.rematch_requests.card = 1 ∧
    handle_message gVoted Player.O ⟨some "rematch_request", none, none⟩ =
      Except.ok
        ({ gVoted with
            board := emptyBoard
            current_player := gVoted.starting_player_for_round.other
            rematch_requests := ∅
            starting_player_for_round := gVoted.starting_player_for_round.other },
          broadcast
            { gVoted with
                board := emptyBoard
                current_player := gVoted.starting_player_for_round.other
                rematch_requests := ∅
                starting_player_for_round := gVoted.starting_player_for_round.other }
            (OutMsg.new_game emptyBoard gVoted.starting_player_for_round.other
              gVoted.score)) :=
  ⟨rfl, rfl,
    rematch_votes_persist.1 regVoted "v" 1 gVoted gDropped rfl rfl,
    by decide, by decide,
    rematch_votes_persist.2.2 gVoted Player.O (by decide) (by decide)⟩
